import Mathlib

/-!
Verification development for the notification-backend repository.

The repository contains several near-duplicate Express server variants.
The definitions below are shallow embeddings of:

- the multicast dispatcher sendNotificationWithOfflineSupport
  (src/index.ts lines 73-208, identical copy in src/unnamed/part_001
  lines 616-751): batching into chunks of 500, per-token outcome
  aggregation, permanent-failure token pruning;
- the recurrence calculator calculateNextScheduledTime in both variants:
  src/index.ts lines 507-513 (no time-of-day handling) and
  src/unnamed/part_001 lines 754-772 (with recurring.time override);
- the scheduler cron job per-record processing in both variants:
  src/index.ts lines 446-505 and src/unnamed/part_001 lines 507-605;
- a small interleaving model for two overlapping cron ticks.

External I/O capabilities (the FCM transport, the Firestore token
registry and the scheduled-notification store) are passed as explicit
parameters; machine state mutated by the source is threaded explicitly.
-/

namespace NotifBackend

/-! ### Multicast dispatcher (src/index.ts, sendNotificationWithOfflineSupport) -/

/-- The two FCM error codes treated as permanent in src/index.ts line 179. -/
def invalidTokenCode : String := "messaging/invalid-registration-token"

/-- The second permanent error code, src/index.ts line 180. -/
def unregisteredCode : String := "messaging/registration-token-not-registered"

/-- One per-token entry of the sendEachForMulticast response: either a
success, or a failure carrying the error code resp.error?.code. -/
inductive SendOutcome where
  | success : SendOutcome
  | failure (code : String) : SendOutcome
deriving DecidableEq

/-- The check at src/index.ts lines 175-181: the token is collected for
deletion when the response is unsuccessful and its code is one of the two
permanent codes.  A success carries no error code and is never collected. -/
def isPermanentFailure : SendOutcome → Bool
  | .success => false
  | .failure code => code == invalidTokenCode || code == unregisteredCode

/-- Number of successful entries of a response list.  The FCM BatchResponse
contract makes response.successCount (read at line 170) equal to this. -/
def countSuccesses (rs : List SendOutcome) : Nat :=
  rs.countP (fun r => match r with | .success => true | .failure _ => false)

/-- Number of unsuccessful entries; response.failureCount of line 171. -/
def countFailures (rs : List SendOutcome) : Nat :=
  rs.countP (fun r => match r with | .success => false | .failure _ => true)

/-- The forEach of src/index.ts lines 174-186: walk the responses together
with the batch (responses.forEach((resp, idx) => ... batch[idx])) and keep
the tokens whose response is a permanent failure. -/
def collectFailedTokens {τ : Type} (batch : List τ) (rs : List SendOutcome) : List τ :=
  (rs.zip batch).filterMap (fun p => if isPermanentFailure p.1 then some p.2 else none)

/-- The push transport capability: messaging.sendEachForMulticast applied to
one batch either returns per-token outcomes or raises a batch-level error. -/
def Transport (τ : Type) : Type := List τ → Except String (List SendOutcome)

/-- The return value of the dispatcher, src/index.ts line 207. -/
structure DispatchResult where
  successCount : Nat
  failureCount : Nat
  totalDevices : Nat
deriving DecidableEq

/-- The transport hard limit, src/index.ts line 79. -/
def batchSize : Nat := 500

/-- The batching loop header of src/index.ts line 84:
for (let i = 0; i < tokens.length; i += batchSize) with
batch = tokens.slice(i, i + batchSize).  The loop runs once for every
i = batchSize * k below tokens.length, i.e. ceil(length / batchSize) times. -/
def chunkTokens {τ : Type} (tokens : List τ) : List (List τ) :=
  (List.range ((tokens.length + (batchSize - 1)) / batchSize)).map
    (fun k => (tokens.drop (batchSize * k)).take batchSize)

/-- The mutable loop state of src/index.ts lines 80-82. -/
structure MulticastState (τ : Type) where
  successCount : Nat
  failureCount : Nat
  failedTokens : List τ
deriving DecidableEq

/-- One iteration of the batching loop, src/index.ts lines 168-190: on a
structured response, add the response counts and collect permanently failed
tokens; on a batch-level exception (catch at line 187), count the whole
batch as failed and collect nothing. -/
def processBatch {τ : Type} (transport : Transport τ) (st : MulticastState τ)
    (batch : List τ) : MulticastState τ :=
  match transport batch with
  | .ok rs =>
      { successCount := st.successCount + countSuccesses rs
        failureCount := st.failureCount + countFailures rs
        failedTokens := st.failedTokens ++ collectFailedTokens batch rs }
  | .error _ => { st with failureCount := st.failureCount + batch.length }

namespace Server

/-- sendNotificationWithOfflineSupport, src/index.ts lines 73-208.  The
deviceTokens collection is modelled as the list of the token values of its
documents; the deletion loop of lines 194-205 removes every document whose
token equals a collected failed token.  Returns the dispatch counts of
line 207 together with the registry contents after the deletions. -/
def sendNotificationWithOfflineSupport {τ : Type} [DecidableEq τ]
    (tokens : List τ) (transport : Transport τ) (registry : List τ) :
    DispatchResult × List τ :=
  let st := (chunkTokens tokens).foldl (processBatch transport) ⟨0, 0, []⟩
  let registry' :=
    if st.failedTokens.length > 0 then
      registry.filter (fun r => decide (r ∉ st.failedTokens))
    else registry
  ({ successCount := st.successCount
     failureCount := st.failureCount
     totalDevices := tokens.length }, registry')

end Server

/-- Success-count contribution of one batch to the aggregate. -/
def batchSuccs {τ : Type} (transport : Transport τ) (b : List τ) : Nat :=
  match transport b with
  | .ok rs => countSuccesses rs
  | .error _ => 0

/-- Failure-count contribution of one batch: per-token failures on a
structured response, the whole batch length on a batch-level exception. -/
def batchFails {τ : Type} (transport : Transport τ) (b : List τ) : Nat :=
  match transport b with
  | .ok rs => countFailures rs
  | .error _ => b.length

/-- Prune-list contribution of one batch: the permanently failed tokens on a
structured response, nothing on a batch-level exception. -/
def batchPrune {τ : Type} (transport : Transport τ) (b : List τ) : List τ :=
  match transport b with
  | .ok rs => collectFailedTokens b rs
  | .error _ => []

/-- The (token, response) pairs of one batch: each token paired with its
per-token transport response, or with none when the batch call raised a
batch-level exception. -/
def batchPairs {τ : Type} (transport : Transport τ) (b : List τ) :
    List (τ × Option SendOutcome) :=
  match transport b with
  | .ok rs => (rs.zip b).map (fun p => (p.2, some p.1))
  | .error _ => b.map (fun t => (t, none))

/-- The per-occurrence (token, response) pairs of a whole dispatch. -/
def tokenResponses {τ : Type} (tokens : List τ) (transport : Transport τ) :
    List (τ × Option SendOutcome) :=
  (chunkTokens tokens).flatMap (batchPairs transport)

/-- Whether the pair is an occurrence of token t that received a
permanent-failure response. -/
def pairIsPermanent {τ : Type} [DecidableEq τ] (t : τ) (p : τ × Option SendOutcome) : Bool :=
  p.1 == t && (match p.2 with | some r => isPermanentFailure r | none => false)

/-- Whether some occurrence of token t received a permanent-failure
response during the dispatch of the given token list. -/
def hasPermanentResponse {τ : Type} [DecidableEq τ] (tokens : List τ)
    (transport : Transport τ) (t : τ) : Bool :=
  (tokenResponses tokens transport).any (pairIsPermanent t)

/-! ### JavaScript Date model

The recurrence calculators mutate a JS Date via setDate, setMonth and
setHours.  A Date is modelled by its civil fields (getMonth is 0-based,
getDate 1-based).  ECMAScript MakeDay normalizes an out-of-range day-of-month
by rolling the excess into the following months, which rollDayAux implements;
setMonth first normalizes the month into the year and then normalizes the
possibly-overflowing day the same way. -/

/-- Gregorian leap-year predicate. -/
def isLeap (y : Nat) : Prop := y % 4 = 0 ∧ (y % 100 ≠ 0 ∨ y % 400 = 0)

instance (y : Nat) : Decidable (isLeap y) := by
  unfold isLeap
  infer_instance

/-- Length of 0-based month m of year y. -/
def daysInMonth (y : Nat) (m : Nat) : Nat :=
  if m = 1 then (if isLeap y then 29 else 28)
  else if m = 3 ∨ m = 5 ∨ m = 8 ∨ m = 10 then 30 else 31

/-- Roll an out-of-range day-of-month forward into the following months.
The fuel argument is always at least the day value, which bounds the number
of rollover steps (each step removes at least 28 days). -/
def rollDayAux : Nat → Nat → Nat → Nat → Nat × Nat × Nat
  | 0, y, m, d => (y, m, d)
  | f + 1, y, m, d =>
    if daysInMonth y m < d then
      if m = 11 then rollDayAux f (y + 1) 0 (d - daysInMonth y m)
      else rollDayAux f y (m + 1) (d - daysInMonth y m)
    else (y, m, d)

/-- Normalized (year, month, day) for a possibly-overflowing day value. -/
def rollDay (y : Nat) (m : Nat) (d : Nat) : Nat × Nat × Nat :=
  rollDayAux d y m d

/-- A JS Date value by civil fields: month is 0-based as in getMonth. -/
structure JSDate where
  year : Nat
  month : Nat
  day : Nat
  hour : Nat
  minute : Nat
  second : Nat
  ms : Nat
deriving DecidableEq

/-- next.setDate(v): recompute the date from (year, month, v) with day
overflow rolled into the following months, keeping the time of day. -/
def jsSetDate (dt : JSDate) (v : Nat) : JSDate :=
  let r := rollDay dt.year dt.month v
  { dt with year := r.1, month := r.2.1, day := r.2.2 }

/-- next.setMonth(v): add v div 12 to the year, take v mod 12 as the month,
and renormalize the unchanged day-of-month, keeping the time of day. -/
def jsSetMonth (dt : JSDate) (v : Nat) : JSDate :=
  let r := rollDay (dt.year + v / 12) (v % 12) dt.day
  { dt with year := r.1, month := r.2.1, day := r.2.2 }

/-- next.setHours(h, mi, 0, 0) for in-range h and mi: override hour and
minute, zero the seconds and milliseconds. -/
def jsSetHours (dt : JSDate) (h : Nat) (mi : Nat) : JSDate :=
  { dt with hour := h, minute := mi, second := 0, ms := 0 }

/-- Day count of the first day of 0-based month m of year y, counted from a
fixed epoch (the standard civil-from-days construction with March-based
years, so that the leap day lands at the end of the shifted year). -/
def monthBase (y : Nat) (m : Nat) : Nat :=
  let ys := if m ≤ 1 then y - 1 else y
  365 * ys + ys / 4 - ys / 100 + ys / 400 + (153 * ((m + 10) % 12) + 2) / 5

/-- Absolute day number of civil date (y, m, d); linear in d, so a day value
beyond the month length extrapolates exactly like ECMAScript MakeDay. -/
def toRataDie (y : Nat) (m : Nat) (d : Nat) : Nat :=
  monthBase y m + (d - 1)

/-- Absolute day number of the date part of a JSDate. -/
def dayNumber (dt : JSDate) : Nat := toRataDie dt.year dt.month dt.day

/-- Milliseconds into the day of the time part. -/
def timeOfDayMs (dt : JSDate) : Nat :=
  dt.hour * 3600000 + dt.minute * 60000 + dt.second * 1000 + dt.ms

/-- Millisecond timestamp of a JSDate; used for scheduledTime <= now. -/
def toMs (dt : JSDate) : Nat := dayNumber dt * 86400000 + timeOfDayMs dt

/-- A JSDate whose fields are in range (year at least 1 keeps the
March-shifted year arithmetic inside Nat). -/
def validDate (dt : JSDate) : Prop :=
  1 ≤ dt.year ∧ dt.month ≤ 11 ∧ 1 ≤ dt.day ∧ dt.day ≤ daysInMonth dt.year dt.month

instance (dt : JSDate) : Decidable (validDate dt) := by
  unfold validDate
  infer_instance

/-! ### Recurrence rules and the two calculateNextScheduledTime variants -/

/-- A parsed recurring.time value: the source splits the string on the
colon and applies parseInt to both halves (part_001 lines 766-769). -/
structure TimeOfDay where
  hours : Nat
  minutes : Nat
deriving DecidableEq

/-- The recurring rule object stored on a scheduled notification.  The
source is loosely typed; the fields actually read are recurring.enabled,
recurring.frequency (a string compared against daily, weekly, monthly) and
recurring.time (part_001 variant only). -/
structure Recurring where
  enabled : Bool
  frequency : String
  time : Option TimeOfDay
deriving DecidableEq

/-- Frequency string for a daily rule. -/
def dailyStr : String := "daily"

/-- Frequency string for a weekly rule. -/
def weeklyStr : String := "weekly"

/-- Frequency string for a monthly rule. -/
def monthlyStr : String := "monthly"

namespace Server

/-- calculateNextScheduledTime, src/index.ts lines 507-513: advance the date
by the frequency; any other frequency value leaves the date unchanged.
This variant performs no time-of-day handling. -/
def calculateNextScheduledTime (currentTime : JSDate) (recurring : Recurring) : JSDate :=
  if recurring.frequency = dailyStr then jsSetDate currentTime (currentTime.day + 1)
  else if recurring.frequency = weeklyStr then jsSetDate currentTime (currentTime.day + 7)
  else if recurring.frequency = monthlyStr then jsSetMonth currentTime (currentTime.month + 1)
  else currentTime

end Server

namespace ServerV2

/-- calculateNextScheduledTime, src/unnamed/part_001 lines 754-772 (same
code in src/unnamed/part_002 lines 532-548): advance the date by the
frequency, then, when recurring.time is set, override the clock fields with
setHours(hours, minutes, 0, 0). -/
def calculateNextScheduledTime (currentTime : JSDate) (recurring : Recurring) : JSDate :=
  let next :=
    if recurring.frequency = dailyStr then jsSetDate currentTime (currentTime.day + 1)
    else if recurring.frequency = weeklyStr then jsSetDate currentTime (currentTime.day + 7)
    else if recurring.frequency = monthlyStr then jsSetMonth currentTime (currentTime.month + 1)
    else currentTime
  match recurring.time with
  | some t => jsSetHours next t.hours t.minutes
  | none => next

end ServerV2

/-! ### Scheduled notifications and the cron job per-record processing -/

/-- The status strings written to scheduledNotifications documents. -/
inductive NotifStatus where
  | pending : NotifStatus
  | sent : NotifStatus
  | failed : NotifStatus
  | cancelled : NotifStatus
deriving DecidableEq

/-- A scheduledNotifications document.  Optional fields are absent until
first written; sentAt and failedAt hold server timestamps modelled as Nat. -/
structure ScheduledNotif where
  id : String
  title : String
  body : String
  scheduledTime : JSDate
  status : NotifStatus
  targetType : String
  recurring : Option Recurring
  error : Option String
  sentAt : Option Nat
  failedAt : Option Nat
  successCount : Option Nat
  failureCount : Option Nat
  totalDevices : Option Nat
deriving DecidableEq

/-- A notificationHistory document as written by the part_001 cron job
(lines 557-567). -/
structure HistoryRecord where
  title : String
  body : String
  targetType : String
  sentAt : Nat
  totalDevices : Nat
  successCount : Nat
  failureCount : Nat
  readBy : List String
  scheduledNotifId : Option String
deriving DecidableEq

/-- One store write performed while processing a due record: either an add
to the notificationHistory collection or an update of the record document. -/
inductive StoreEffect where
  | appendHistory (h : HistoryRecord) : StoreEffect
  | updateDoc (n : ScheduledNotif) : StoreEffect
deriving DecidableEq

/-- The error string written by the part_001 cron job when the device-token
registry is empty (part_001 line 531). -/
def noDevicesMsg : String := "No devices registered"

namespace Server

/-- The due query of the cron job, src/index.ts lines 450-454: all records
with status == pending and scheduledTime <= now. -/
def queryDue (now : Nat) (recs : List ScheduledNotif) : List ScheduledNotif :=
  recs.filter (fun r => decide (r.status = NotifStatus.pending ∧ toMs r.scheduledTime ≤ now))

/-- The body of the per-document loop of the src/index.ts cron job,
lines 460-501, for one record: skip the record entirely when the token
registry is empty (continue at line 467, no write at all); otherwise the
try block dispatches — its outcome is the result of
sendNotificationWithOfflineSupport, or the raised error — and on success
the record is updated to sent with the spread dispatch counts, switched
back to pending with an advanced scheduledTime when recurring is present
and enabled; on a raise the catch at lines 494-500 updates the record to
failed with the stringified error.  Returns the persisted record state and
the store writes in order. -/
def processScheduledDoc (serverNow : Nat) (tokens : List String)
    (outcome : Except String DispatchResult) (n : ScheduledNotif) :
    ScheduledNotif × List StoreEffect :=
  if tokens.length = 0 then (n, [])
  else
    match outcome with
    | .error e =>
        let n' := { n with status := NotifStatus.failed, error := some e }
        (n', [StoreEffect.updateDoc n'])
    | .ok result =>
        let base := { n with status := NotifStatus.sent
                             sentAt := some serverNow
                             successCount := some result.successCount
                             failureCount := some result.failureCount
                             totalDevices := some result.totalDevices }
        let upd :=
          match n.recurring with
          | some r =>
              if r.enabled then
                { base with scheduledTime := calculateNextScheduledTime n.scheduledTime r
                            status := NotifStatus.pending }
              else base
          | none => base
        (upd, [StoreEffect.updateDoc upd])

/-- The for-loop of the cron job over the due snapshot: each document is
processed by its own try/catch, so every record is processed and each
result depends only on that record and its own dispatch outcome (given by
the oracle). -/
def processTick (serverNow : Nat) (tokens : List String)
    (oracle : ScheduledNotif → Except String DispatchResult)
    (recs : List ScheduledNotif) : List ScheduledNotif :=
  recs.map (fun n => (processScheduledDoc serverNow tokens (oracle n) n).1)

end Server

namespace ServerV2

/-- The body of the per-document loop of the part_001 cron job, lines
522-597, for one record: when the token registry is empty the record is
updated to failed with reason noDevicesMsg (lines 529-533); otherwise the
inline batch loop dispatches (its summed counts, or the raised error, given
by outcome), a history record is appended (lines 557-567), and then the
record is updated (lines 570-587), switching back to pending with an
advanced scheduledTime when recurring is present and enabled; on a raise
the catch at lines 590-597 updates the record to failed with the error and
a failedAt timestamp.  Returns the persisted record state and the store
writes in order. -/
def processScheduledDoc (serverNow : Nat) (tokens : List String)
    (outcome : Except String (Nat × Nat)) (n : ScheduledNotif) :
    ScheduledNotif × List StoreEffect :=
  if tokens.length = 0 then
    let n' := { n with status := NotifStatus.failed, error := some noDevicesMsg }
    (n', [StoreEffect.updateDoc n'])
  else
    match outcome with
    | .error e =>
        let n' := { n with status := NotifStatus.failed, error := some e
                           failedAt := some serverNow }
        (n', [StoreEffect.updateDoc n'])
    | .ok counts =>
        let h : HistoryRecord :=
          { title := n.title, body := n.body, targetType := n.targetType
            sentAt := serverNow, totalDevices := tokens.length
            successCount := counts.1, failureCount := counts.2
            readBy := [], scheduledNotifId := some n.id }
        let base := { n with status := NotifStatus.sent
                             sentAt := some serverNow
                             successCount := some counts.1
                             failureCount := some counts.2 }
        let upd :=
          match n.recurring with
          | some r =>
              if r.enabled then
                { base with scheduledTime := calculateNextScheduledTime n.scheduledTime r
                            status := NotifStatus.pending }
              else base
          | none => base
        (upd, [StoreEffect.appendHistory h, StoreEffect.updateDoc upd])

end ServerV2

/-! ### Interleaving model for overlapping cron ticks

setInterval fires the cron callback every 60 seconds regardless of whether
the previous invocation has finished; each await inside the callback is a
point at which another invocation may run.  A tick is modelled as three
atomic phases separated by awaits: the due query (read of the record), the
dispatch (sendEachForMulticast inside sendNotificationWithOfflineSupport)
and the write-back of the update computed from the snapshot read by the
query.  Any interleaving of the phase sequences of two ticks is a possible
execution. -/

/-- State shared by all ticks: the single scheduled record under scrutiny
and how many times a dispatch for it has been submitted to the transport. -/
structure CronGlobal where
  doc : ScheduledNotif
  dispatchCount : Nat
deriving DecidableEq

/-- Local state of one tick: its program counter over the three phases and
the snapshot of the record taken by its due query (none when the query
returned an empty snapshot). -/
structure TickState where
  pc : Nat
  seen : Option ScheduledNotif
deriving DecidableEq

/-- One phase of one cron tick (src/index.ts lines 446-505).  pc 0: run the
due query and snapshot the record when it is pending and due.  pc 1:
dispatch to the registered tokens when the snapshot holds a record and the
registry is not empty.  pc 2: write back the update computed by
processScheduledDoc from the snapshotted record.  The write is
unconditional (doc.ref.update), not a compare-and-swap. -/
def tickStep (now : Nat) (serverNow : Nat) (tokens : List String)
    (outcome : Except String DispatchResult)
    (g : CronGlobal) (t : TickState) : CronGlobal × TickState :=
  match t.pc with
  | 0 =>
      let seen :=
        if g.doc.status = NotifStatus.pending ∧ toMs g.doc.scheduledTime ≤ now then
          some g.doc
        else none
      (g, { pc := 1, seen := seen })
  | 1 =>
      match t.seen with
      | some _ =>
          if tokens.length = 0 then (g, { t with pc := 2 })
          else ({ g with dispatchCount := g.dispatchCount + 1 }, { t with pc := 2 })
      | none => (g, { t with pc := 2 })
  | 2 =>
      match t.seen with
      | some n =>
          ({ g with doc := (Server.processScheduledDoc serverNow tokens outcome n).1 },
           { t with pc := 3 })
      | none => (g, { t with pc := 3 })
  | _ => (g, t)

/-- Combined state of the record store and two tick invocations. -/
structure CronPair where
  glob : CronGlobal
  tick0 : TickState
  tick1 : TickState
deriving DecidableEq

/-- Run one phase of the tick selected by the scheduling bit. -/
def cronStep (now : Nat) (serverNow : Nat) (tokens : List String)
    (outcome : Except String DispatchResult)
    (s : CronPair) (which : Bool) : CronPair :=
  if which then
    let r := tickStep now serverNow tokens outcome s.glob s.tick1
    { s with glob := r.1, tick1 := r.2 }
  else
    let r := tickStep now serverNow tokens outcome s.glob s.tick0
    { s with glob := r.1, tick0 := r.2 }

/-- Run an interleaving of the two ticks given by the list of scheduling
bits (false selects tick 0, true selects tick 1). -/
def runCron (now : Nat) (serverNow : Nat) (tokens : List String)
    (outcome : Except String DispatchResult)
    (sched : List Bool) (s : CronPair) : CronPair :=
  sched.foldl (cronStep now serverNow tokens outcome) s

/-! ### Concrete inputs used by counterexamples and witnesses -/

/-- 2024-01-01T09:00:00.000 (month 0 is January). -/
def jan1 : JSDate := ⟨2024, 0, 1, 9, 0, 0, 0⟩

/-- 2024-01-08T09:00:00.000. -/
def jan8 : JSDate := ⟨2024, 0, 8, 9, 0, 0, 0⟩

/-- A weekly rule firing at 09:00. -/
def weeklyRule : Recurring := ⟨true, weeklyStr, some ⟨9, 0⟩⟩

/-- A daily rule with a 09:00 time of day. -/
def dailyNineRule : Recurring := ⟨true, dailyStr, some ⟨9, 0⟩⟩

/-- 2024-01-01T10:30:00.000, a previous fire time whose clock fields differ
from the 09:00 of dailyNineRule. -/
def tenThirty : JSDate := ⟨2024, 0, 1, 10, 30, 0, 0⟩

/-- A one-shot pending scheduled notification due at jan1. -/
def pendingDoc : ScheduledNotif :=
  { id := "n1", title := "hello", body := "world", scheduledTime := jan1
    status := NotifStatus.pending, targetType := "all", recurring := none
    error := none, sentAt := none, failedAt := none
    successCount := none, failureCount := none, totalDevices := none }

/-- A transport answering every batch with a success for the first token
and a permanent failure for the second. -/
def dupTransport : Transport Nat :=
  fun _ => Except.ok [SendOutcome.success, SendOutcome.failure invalidTokenCode]

/-- The batch-level error message used by the failing example transport. -/
def netErrMsg : String := "network unreachable"

/-- A transport raising a batch-level exception on every batch. -/
def downTransport : Transport Nat :=
  fun _ => Except.error netErrMsg

/-- A transport for which every token of every batch succeeds. -/
def allOkTransport : Transport Nat :=
  fun b => Except.ok (b.map (fun _ => SendOutcome.success))

/-- The overlapped schedule: both ticks run their due query before either
has written its update back. -/
def overlappedSched : List Bool := [false, true, false, false, true, true]

/-- The sequential schedule: the second tick starts only after the first
has written its update back. -/
def sequentialSched : List Bool := [false, false, false, true, true, true]

/-- The single device token used in concrete scheduler runs. -/
def tokenT : String := "t"

/-- A concrete stringified dispatch error. -/
def errBoom : String := "Error: FirebaseMessagingError"

/-- A transport answering every token of every batch with a permanent
invalid-registration failure. -/
def permTransport : Transport Nat :=
  fun b => Except.ok (b.map (fun _ => SendOutcome.failure invalidTokenCode))

/-- A daily rule without a time of day. -/
def dailyNoTime : Recurring := ⟨true, dailyStr, none⟩

/-- The pending record with an enabled weekly recurrence. -/
def recurDoc : ScheduledNotif := { pendingDoc with recurring := some weeklyRule }

/-- Whether a store write is an append to the history collection. -/
def isHistoryAppend : StoreEffect → Bool
  | .appendHistory _ => true
  | .updateDoc _ => false

/-- The literal per-occurrence reading of the registry-pruning claim: every
token occurrence whose recorded response is a permanent failure is absent
from the registry after dispatch, and every token occurrence whose recorded
response is a success or a transient failure is still present (when it was
present before). -/
def perOccurrenceRegistryClaim {τ : Type} [DecidableEq τ]
    (tokens : List τ) (transport : Transport τ) (registry : List τ) : Prop :=
  ∀ p ∈ tokenResponses tokens transport,
    match p.2 with
    | some r =>
        (isPermanentFailure r = true →
          p.1 ∉ (Server.sendNotificationWithOfflineSupport tokens transport registry).2)
        ∧ (isPermanentFailure r = false →
          p.1 ∈ registry →
            p.1 ∈ (Server.sendNotificationWithOfflineSupport tokens transport registry).2)
    | none => True

/-! ### Helper lemmas: batching -/

theorem chunkTokens_nil {τ : Type} : chunkTokens ([] : List τ) = [] := by
  simp [chunkTokens, batchSize]

theorem chunkTokens_length {τ : Type} (l : List τ) :
    (chunkTokens l).length = (l.length + (batchSize - 1)) / batchSize := by
  simp [chunkTokens]

theorem chunkTokens_cons {τ : Type} (l : List τ) (h : l ≠ []) :
    chunkTokens l = l.take batchSize :: chunkTokens (l.drop batchSize) := by
  have hlen : 0 < l.length := List.length_pos.mpr h
  have hn : (l.length + (batchSize - 1)) / batchSize
      = ((l.drop batchSize).length + (batchSize - 1)) / batchSize + 1 := by
    simp only [List.length_drop, batchSize]
    omega
  unfold chunkTokens
  rw [hn, List.range_succ_eq_map, List.map_cons, List.map_map]
  simp only [Nat.mul_zero, List.drop_zero]
  congr 1
  apply List.map_congr_left
  intro k _
  simp only [Function.comp_apply, List.drop_drop, Nat.mul_succ]
  rw [Nat.add_comm]

theorem chunkTokens_flatten {τ : Type} (l : List τ) : (chunkTokens l).flatten = l := by
  by_cases h : l = []
  · subst h
    simp [chunkTokens_nil]
  · rw [chunkTokens_cons l h, List.flatten_cons, chunkTokens_flatten (l.drop batchSize),
      List.take_append_drop]
termination_by l.length
decreasing_by
  simp only [List.length_drop]
  have hlen : 0 < l.length := List.length_pos.mpr h
  simp only [batchSize]
  omega

theorem chunkTokens_batch_le {τ : Type} (l : List τ) :
    ∀ b ∈ chunkTokens l, b.length ≤ batchSize := by
  intro b hb
  simp only [chunkTokens, List.mem_map, List.mem_range] at hb
  obtain ⟨k, _, rfl⟩ := hb
  exact List.length_take_le _ _

/-! ### Helper lemmas: dispatch aggregation -/

theorem foldl_processBatch {τ : Type} (transport : Transport τ)
    (bs : List (List τ)) (st : MulticastState τ) :
    bs.foldl (processBatch transport) st =
      ⟨st.successCount + (bs.map (batchSuccs transport)).sum,
       st.failureCount + (bs.map (batchFails transport)).sum,
       st.failedTokens ++ bs.flatMap (batchPrune transport)⟩ := by
  induction bs generalizing st with
  | nil => simp
  | cons b bs ih =>
    simp only [List.foldl_cons, List.map_cons, List.sum_cons, List.flatMap_cons]
    rw [ih]
    cases htb : transport b with
    | ok rs =>
      unfold processBatch batchSuccs batchFails batchPrune
      rw [htb]
      simp [Nat.add_assoc, List.append_assoc]
    | error e =>
      unfold processBatch batchSuccs batchFails batchPrune
      rw [htb]
      simp [Nat.add_assoc]

theorem sendNotification_eq {τ : Type} [DecidableEq τ] (tokens : List τ)
    (transport : Transport τ) (registry : List τ) :
    Server.sendNotificationWithOfflineSupport tokens transport registry =
      (⟨((chunkTokens tokens).map (batchSuccs transport)).sum,
        ((chunkTokens tokens).map (batchFails transport)).sum,
        tokens.length⟩,
       registry.filter
         (fun r => decide (r ∉ (chunkTokens tokens).flatMap (batchPrune transport)))) := by
  simp only [Server.sendNotificationWithOfflineSupport]
  rw [foldl_processBatch]
  simp only [Nat.zero_add, List.nil_append]
  by_cases hp : (chunkTokens tokens).flatMap (batchPrune transport) = []
  · rw [hp]
    simp
  · have hlen : 0 < ((chunkTokens tokens).flatMap (batchPrune transport)).length :=
      List.length_pos.mpr hp
    rw [if_pos hlen]

theorem mem_batchPrune_iff {τ : Type} (transport : Transport τ) (b : List τ) (t : τ) :
    t ∈ batchPrune transport b ↔
      ∃ p ∈ batchPairs transport b,
        p.1 = t ∧ (match p.2 with | some r => isPermanentFailure r | none => false) = true := by
  unfold batchPrune batchPairs collectFailedTokens
  cases transport b with
  | ok rs =>
    simp only [List.mem_filterMap, List.mem_map]
    constructor
    · rintro ⟨q, hq, hqt⟩
      by_cases hperm : isPermanentFailure q.1
      · rw [if_pos hperm] at hqt
        exact ⟨(q.2, some q.1), ⟨q, hq, rfl⟩, by simpa using hqt, by simpa using hperm⟩
      · rw [if_neg hperm] at hqt
        exact absurd hqt (by simp)
    · rintro ⟨p, ⟨q, hq, rfl⟩, hpt, hperm⟩
      refine ⟨q, hq, ?_⟩
      simp only at hpt hperm
      rw [if_pos hperm, hpt]
  | error e =>
    simp

theorem hasPermanentResponse_iff {τ : Type} [DecidableEq τ] (tokens : List τ)
    (transport : Transport τ) (t : τ) :
    hasPermanentResponse tokens transport t = true ↔
      t ∈ (chunkTokens tokens).flatMap (batchPrune transport) := by
  unfold hasPermanentResponse tokenResponses
  rw [List.any_eq_true]
  simp only [List.mem_flatMap]
  constructor
  · rintro ⟨p, ⟨b, hb, hpb⟩, hpred⟩
    rw [pairIsPermanent, Bool.and_eq_true, beq_iff_eq] at hpred
    exact ⟨b, hb, (mem_batchPrune_iff transport b t).mpr ⟨p, hpb, hpred.1, hpred.2⟩⟩
  · rintro ⟨b, hb, hbp⟩
    obtain ⟨p, hpb, hpt, hperm⟩ := (mem_batchPrune_iff transport b t).mp hbp
    exact ⟨p, ⟨b, hb, hpb⟩, by rw [pairIsPermanent, Bool.and_eq_true, beq_iff_eq]; exact ⟨hpt, hperm⟩⟩

theorem registry_after_dispatch {τ : Type} [DecidableEq τ] (tokens : List τ)
    (transport : Transport τ) (registry : List τ) (t : τ) :
    t ∈ (Server.sendNotificationWithOfflineSupport tokens transport registry).2 ↔
      t ∈ registry ∧ hasPermanentResponse tokens transport t = false := by
  rw [sendNotification_eq]
  simp only [List.mem_filter, decide_eq_true_eq]
  constructor
  · rintro ⟨hr, hnot⟩
    refine ⟨hr, ?_⟩
    cases hb : hasPermanentResponse tokens transport t with
    | false => rfl
    | true => exact absurd ((hasPermanentResponse_iff tokens transport t).mp hb) hnot
  · rintro ⟨hr, hfalse⟩
    refine ⟨hr, fun hmem => ?_⟩
    rw [(hasPermanentResponse_iff tokens transport t).mpr hmem] at hfalse
    exact absurd hfalse (by decide)

/-! ### Helper lemmas: calendar arithmetic -/

theorem daysInMonth_ge (y m : Nat) : 28 ≤ daysInMonth y m := by
  unfold daysInMonth
  split_ifs <;> omega

theorem rollDayAux_of_le (f y m d : Nat) (h : d ≤ daysInMonth y m) :
    rollDayAux f y m d = (y, m, d) := by
  cases f with
  | zero => rfl
  | succ f =>
    unfold rollDayAux
    rw [if_neg (by omega)]

theorem yearDays_succ (y : Nat) (hy : 1 ≤ y) :
    365 * y + y / 4 - y / 100 + y / 400
      = 365 * (y - 1) + (y - 1) / 4 - (y - 1) / 100 + (y - 1) / 400 + 365
        + (if isLeap y then 1 else 0) := by
  by_cases h4 : y % 4 = 0
  · by_cases h100 : y % 100 = 0
    · by_cases h400 : y % 400 = 0
      · have hL : isLeap y := by
          unfold isLeap
          exact ⟨h4, Or.inr h400⟩
        rw [if_pos hL]
        have e4 : y / 4 = (y - 1) / 4 + 1 := by omega
        have e100 : y / 100 = (y - 1) / 100 + 1 := by omega
        have e400 : y / 400 = (y - 1) / 400 + 1 := by omega
        omega
      · have hL : ¬ isLeap y := by
          unfold isLeap
          rintro ⟨-, hc⟩
          rcases hc with hc | hc
          · exact hc h100
          · exact h400 hc
        rw [if_neg hL]
        have e4 : y / 4 = (y - 1) / 4 + 1 := by omega
        have e100 : y / 100 = (y - 1) / 100 + 1 := by omega
        have e400 : y / 400 = (y - 1) / 400 := by omega
        omega
    · have hL : isLeap y := by
        unfold isLeap
        exact ⟨h4, Or.inl h100⟩
      rw [if_pos hL]
      have h400 : y % 400 ≠ 0 := by omega
      have e4 : y / 4 = (y - 1) / 4 + 1 := by omega
      have e100 : y / 100 = (y - 1) / 100 := by omega
      have e400 : y / 400 = (y - 1) / 400 := by omega
      omega
  · have hL : ¬ isLeap y := by
      unfold isLeap
      rintro ⟨hc, -⟩
      exact h4 hc
    rw [if_neg hL]
    have h100 : y % 100 ≠ 0 := by omega
    have h400 : y % 400 ≠ 0 := by omega
    have e4 : y / 4 = (y - 1) / 4 := by omega
    have e100 : y / 100 = (y - 1) / 100 := by omega
    have e400 : y / 400 = (y - 1) / 400 := by omega
    omega

theorem monthBase_step (y m : Nat) (hy : 1 ≤ y) (hm : m ≤ 11) :
    (if m = 11 then monthBase (y + 1) 0 else monthBase y (m + 1))
      = monthBase y m + daysInMonth y m := by
  have hsucc := yearDays_succ y hy
  interval_cases m <;>
    simp [monthBase, daysInMonth] <;>
    split_ifs at hsucc ⊢ <;>
    omega

theorem rollDayAux_toRataDie (d : Nat) : ∀ f y m : Nat, d ≤ f → 1 ≤ y → m ≤ 11 → 1 ≤ d →
    toRataDie (rollDayAux f y m d).1 (rollDayAux f y m d).2.1 (rollDayAux f y m d).2.2
      = toRataDie y m d := by
  induction d using Nat.strong_induction_on with
  | _ d ih =>
    intro f y m hf hy hm hd
    by_cases hle : d ≤ daysInMonth y m
    · rw [rollDayAux_of_le f y m d hle]
    · push_neg at hle
      have hge : 28 ≤ daysInMonth y m := daysInMonth_ge y m
      obtain ⟨f', rfl⟩ : ∃ f', f = f' + 1 := ⟨f - 1, by omega⟩
      by_cases hm11 : m = 11
      · subst hm11
        have hstep : rollDayAux (f' + 1) y 11 d
            = rollDayAux f' (y + 1) 0 (d - daysInMonth y 11) := by
          conv_lhs => rw [rollDayAux.eq_def]
          simp [hle]
        rw [hstep,
          ih (d - daysInMonth y 11) (by omega) f' (y + 1) 0 (by omega) (by omega)
            (by omega) (by omega)]
        have hmb := monthBase_step y 11 hy (by omega)
        rw [if_pos rfl] at hmb
        unfold toRataDie
        omega
      · have hstep : rollDayAux (f' + 1) y m d
            = rollDayAux f' y (m + 1) (d - daysInMonth y m) := by
          conv_lhs => rw [rollDayAux.eq_def]
          simp [hle, hm11]
        rw [hstep,
          ih (d - daysInMonth y m) (by omega) f' y (m + 1) (by omega) hy
            (by omega) (by omega)]
        have hmb := monthBase_step y m hy hm
        rw [if_neg hm11] at hmb
        unfold toRataDie
        omega

theorem rollDay_toRataDie (y m d : Nat) (hy : 1 ≤ y) (hm : m ≤ 11) (hd : 1 ≤ d) :
    toRataDie (rollDay y m d).1 (rollDay y m d).2.1 (rollDay y m d).2.2
      = toRataDie y m d :=
  rollDayAux_toRataDie d d y m Nat.le.refl hy hm hd

theorem rollDay_of_le (y m d : Nat) (h : d ≤ daysInMonth y m) :
    rollDay y m d = (y, m, d) :=
  rollDayAux_of_le d y m d h

theorem toRataDie_add (y m d k : Nat) (hd : 1 ≤ d) :
    toRataDie y m (d + k) = toRataDie y m d + k := by
  unfold toRataDie
  omega

theorem jsSetDate_dayNumber (dt : JSDate) (k : Nat) (h : validDate dt) :
    dayNumber (jsSetDate dt (dt.day + k)) = dayNumber dt + k := by
  obtain ⟨hy, hm, hd1, _⟩ := h
  show toRataDie (rollDay dt.year dt.month (dt.day + k)).1
      (rollDay dt.year dt.month (dt.day + k)).2.1
      (rollDay dt.year dt.month (dt.day + k)).2.2 = dayNumber dt + k
  rw [rollDay_toRataDie dt.year dt.month (dt.day + k) hy hm (by omega)]
  exact toRataDie_add dt.year dt.month dt.day k hd1

theorem jsSetDate_time (dt : JSDate) (v : Nat) :
    (jsSetDate dt v).hour = dt.hour ∧ (jsSetDate dt v).minute = dt.minute ∧
    (jsSetDate dt v).second = dt.second ∧ (jsSetDate dt v).ms = dt.ms :=
  ⟨rfl, rfl, rfl, rfl⟩

theorem jsSetMonth_dayNumber (dt : JSDate) (h : validDate dt) :
    dayNumber (jsSetMonth dt (dt.month + 1)) =
      (if dt.month = 11 then toRataDie (dt.year + 1) 0 dt.day
       else toRataDie dt.year (dt.month + 1) dt.day) := by
  obtain ⟨hy, hm, hd1, _⟩ := h
  by_cases hm11 : dt.month = 11
  · rw [if_pos hm11]
    show toRataDie (rollDay (dt.year + (dt.month + 1) / 12) ((dt.month + 1) % 12) dt.day).1
        (rollDay (dt.year + (dt.month + 1) / 12) ((dt.month + 1) % 12) dt.day).2.1
        (rollDay (dt.year + (dt.month + 1) / 12) ((dt.month + 1) % 12) dt.day).2.2 = _
    rw [show dt.year + (dt.month + 1) / 12 = dt.year + 1 by omega,
      show (dt.month + 1) % 12 = 0 by omega]
    exact rollDay_toRataDie (dt.year + 1) 0 dt.day (by omega) (by omega) hd1
  · rw [if_neg hm11]
    show toRataDie (rollDay (dt.year + (dt.month + 1) / 12) ((dt.month + 1) % 12) dt.day).1
        (rollDay (dt.year + (dt.month + 1) / 12) ((dt.month + 1) % 12) dt.day).2.1
        (rollDay (dt.year + (dt.month + 1) / 12) ((dt.month + 1) % 12) dt.day).2.2 = _
    rw [show dt.year + (dt.month + 1) / 12 = dt.year by omega,
      show (dt.month + 1) % 12 = dt.month + 1 by omega]
    exact rollDay_toRataDie dt.year (dt.month + 1) dt.day hy (by omega) hd1

theorem jsSetMonth_time (dt : JSDate) (v : Nat) :
    (jsSetMonth dt v).hour = dt.hour ∧ (jsSetMonth dt v).minute = dt.minute ∧
    (jsSetMonth dt v).second = dt.second ∧ (jsSetMonth dt v).ms = dt.ms :=
  ⟨rfl, rfl, rfl, rfl⟩

/-! ### Claim theorems -/

/-- C3: dispatch partitions the input into ceil(N/500) contiguous batches in
input order, each of length at most 500, with no token omitted or duplicated
across batches; a list of 1200 tokens that all succeed yields exactly 3
transport calls (batches) and the result successCount 1200, failureCount 0,
totalDevices 1200. -/
theorem c3_batch_partition {τ : Type} [DecidableEq τ] (tokens : List τ) :
    (chunkTokens tokens).flatten = tokens
    ∧ (∀ b ∈ chunkTokens tokens, b.length ≤ 500)
    ∧ (chunkTokens tokens).length = (tokens.length + 499) / 500
    ∧ (∀ (transport : Transport τ) (registry : List τ),
        tokens.length = 1200 →
        (∀ b, transport b = Except.ok (b.map (fun _ => SendOutcome.success))) →
        Server.sendNotificationWithOfflineSupport tokens transport registry
            = (⟨1200, 0, 1200⟩, registry)
          ∧ (chunkTokens tokens).length = 3) := by
  refine ⟨chunkTokens_flatten tokens, ?_, ?_, ?_⟩
  · intro b hb
    simpa [batchSize] using chunkTokens_batch_le tokens b hb
  · simpa [batchSize] using chunkTokens_length tokens
  · intro transport registry hlen htr
    have hbs : ∀ b : List τ, batchSuccs transport b = b.length := by
      intro b
      rw [show batchSuccs transport b
          = countSuccesses (b.map (fun _ => SendOutcome.success)) by
        unfold batchSuccs
        rw [htr b]]
      unfold countSuccesses
      rw [List.countP_map]
      simp [Function.comp]
    have hbf : ∀ b : List τ, batchFails transport b = 0 := by
      intro b
      rw [show batchFails transport b
          = countFailures (b.map (fun _ => SendOutcome.success)) by
        unfold batchFails
        rw [htr b]]
      unfold countFailures
      rw [List.countP_map]
      simp [Function.comp]
    have hbp : ∀ b : List τ, batchPrune transport b = [] := by
      intro b
      rw [show batchPrune transport b
          = collectFailedTokens b (b.map (fun _ => SendOutcome.success)) by
        unfold batchPrune
        rw [htr b]]
      unfold collectFailedTokens
      rw [List.filterMap_eq_nil_iff]
      intro p hp
      have h1 : p.1 ∈ b.map (fun _ => SendOutcome.success) := (List.of_mem_zip hp).1
      obtain ⟨-, -, hps⟩ := List.mem_map.mp h1
      rw [if_neg (by rw [← hps]; simp [isPermanentFailure])]
    have hsum : ((chunkTokens tokens).map (batchSuccs transport)).sum = 1200 := by
      have hfun : (chunkTokens tokens).map (batchSuccs transport)
          = (chunkTokens tokens).map List.length :=
        List.map_congr_left (fun b _ => hbs b)
      rw [hfun, ← List.length_flatten, chunkTokens_flatten, hlen]
    have hfsum : ((chunkTokens tokens).map (batchFails transport)).sum = 0 := by
      have hfun : (chunkTokens tokens).map (batchFails transport)
          = (chunkTokens tokens).map (fun _ => 0) :=
        List.map_congr_left (fun b _ => hbf b)
      rw [hfun]
      simp
    have hpr : (chunkTokens tokens).flatMap (batchPrune transport) = [] := by
      rw [List.flatMap_eq_nil_iff]
      exact fun b _ => hbp b
    refine ⟨?_, ?_⟩
    · rw [sendNotification_eq, hsum, hfsum, hlen, hpr]
      simp
    · rw [chunkTokens_length, hlen]
      rfl

/-- Witness for c3: the 1200-token scenario hypotheses hold at the concrete
input consisting of 1200 copies of token 0 and the all-success transport. -/
theorem c3_batch_partition_witness :
    Server.sendNotificationWithOfflineSupport (List.replicate 1200 (0 : Nat))
        (fun b => Except.ok (b.map (fun _ => SendOutcome.success))) []
      = (⟨1200, 0, 1200⟩, [])
    ∧ (chunkTokens (List.replicate 1200 (0 : Nat))).length = 3 :=
  (c3_batch_partition (List.replicate 1200 (0 : Nat))).2.2.2
    (fun b => Except.ok (b.map (fun _ => SendOutcome.success))) []
    (by rw [List.length_replicate]) (fun b => rfl)

set_option maxRecDepth 8192 in
/-- C10: dispatching the empty token list returns successCount 0,
failureCount 0, totalDevices 0, leaves the registry untouched, produces no
batch (so the transport is never contacted: the result does not depend on
the transport at all). -/
theorem c10_empty_token_list {τ : Type} [DecidableEq τ]
    (t1 t2 : Transport τ) (registry : List τ) :
    Server.sendNotificationWithOfflineSupport [] t1 registry = (⟨0, 0, 0⟩, registry)
    ∧ Server.sendNotificationWithOfflineSupport [] t1 registry
        = Server.sendNotificationWithOfflineSupport [] t2 registry
    ∧ chunkTokens ([] : List τ) = [] := by
  have h1 : ∀ t : Transport τ,
      Server.sendNotificationWithOfflineSupport [] t registry = (⟨0, 0, 0⟩, registry) := by
    intro t
    simp [Server.sendNotificationWithOfflineSupport, chunkTokens_nil]
  exact ⟨h1 t1, (h1 t1).trans (h1 t2).symm, chunkTokens_nil⟩

/-- C7: the dispatch outcome is the batchwise aggregate over all batches —
so processing continues past an erroring batch and no exception escapes the
dispatcher, which returns a plain result — and a batch whose transport call
raises contributes no token to the prune list, its full length to the
failure count, and nothing to the success count. -/
theorem c7_batch_exception_containment {τ : Type} [DecidableEq τ]
    (tokens : List τ) (transport : Transport τ) (registry : List τ) :
    Server.sendNotificationWithOfflineSupport tokens transport registry
      = (⟨((chunkTokens tokens).map (batchSuccs transport)).sum,
          ((chunkTokens tokens).map (batchFails transport)).sum,
          tokens.length⟩,
         registry.filter
           (fun r => decide (r ∉ (chunkTokens tokens).flatMap (batchPrune transport))))
    ∧ (∀ b e, transport b = Except.error e →
        batchPrune transport b = [] ∧ batchFails transport b = b.length
          ∧ batchSuccs transport b = 0) := by
  refine ⟨sendNotification_eq tokens transport registry, ?_⟩
  intro b e he
  unfold batchPrune batchFails batchSuccs
  rw [he]
  exact ⟨rfl, rfl, rfl⟩

/-- Witness for c7: the erroring-batch contributions at a concrete
three-token batch and the always-failing transport. -/
theorem c7_batch_exception_witness :
    batchPrune downTransport [1, 2, 3] = ([] : List Nat)
    ∧ batchFails downTransport [1, 2, 3] = 3
    ∧ batchSuccs downTransport [1, 2, 3] = 0 := by
  have h := (c7_batch_exception_containment [1, 2, 3] downTransport []).2
    [1, 2, 3] netErrMsg rfl
  simpa using h

set_option maxRecDepth 8192 in
/-- C1 (counterexample): with the duplicated token list [7, 7], a transport
answering success for the first occurrence and a permanent failure for the
second, and a registry holding token 7, the first occurrence carries a
success response yet token 7 is pruned from the registry — so the claim that
a token whose response is a success is still present after dispatch fails as
stated. -/
theorem c1_per_occurrence_counterexample :
    ¬ perOccurrenceRegistryClaim [7, 7] dupTransport [7] := by
  intro h
  have hmem : ((7 : Nat), some SendOutcome.success) ∈ tokenResponses [7, 7] dupTransport := by
    decide
  have hc := h _ hmem
  have h3 := hc.2 rfl (by decide)
  exact absurd h3 (by decide)

/-- C1 (amended): after dispatch, every token at least one of whose
responses carries a permanent-failure classification has been deleted from
the registry, and for a token none of whose responses is a permanent
failure (successes and transient failures only) registry membership is
unchanged. -/
theorem c1_amended_registry_pruning {τ : Type} [DecidableEq τ]
    (tokens : List τ) (transport : Transport τ) (registry : List τ) (t : τ) :
    (hasPermanentResponse tokens transport t = true →
        t ∉ (Server.sendNotificationWithOfflineSupport tokens transport registry).2)
    ∧ (hasPermanentResponse tokens transport t = false →
        (t ∈ (Server.sendNotificationWithOfflineSupport tokens transport registry).2
          ↔ t ∈ registry)) := by
  constructor
  · intro hp hmem
    rw [registry_after_dispatch] at hmem
    exact absurd (hmem.2.symm.trans hp) (by decide)
  · intro hp
    constructor
    · intro hmem
      exact ((registry_after_dispatch tokens transport registry t).mp hmem).1
    · intro hreg
      exact (registry_after_dispatch tokens transport registry t).mpr ⟨hreg, hp⟩

/-- Witness for c1 (amended): token 3 has a permanent-failure response and
is deleted; token 5 only has success responses and stays registered. -/
theorem c1_amended_registry_pruning_witness :
    ((3 : Nat) ∉ (Server.sendNotificationWithOfflineSupport [3] permTransport [3]).2)
    ∧ ((5 : Nat) ∈ (Server.sendNotificationWithOfflineSupport [5] allOkTransport [5]).2
        ↔ (5 : Nat) ∈ [5]) :=
  ⟨(c1_amended_registry_pruning [3] permTransport [3] 3).1 (by decide),
   (c1_amended_registry_pruning [5] allOkTransport [5] 5).2 (by decide)⟩

/-- C4: for a due pending record whose dispatch succeeds, the persisted
state has status pending and scheduledTime advanced by the recurrence
calculator when recurrence is present and enabled, and terminal status sent
otherwise; the due query selects only pending records, so a sent record is
never selected again. -/
theorem c4_success_transition (serverNow now : Nat) (tokens : List String)
    (res : DispatchResult) (n : ScheduledNotif)
    (hp : n.status = NotifStatus.pending) (hdue : toMs n.scheduledTime ≤ now)
    (htok : tokens ≠ []) :
    (∀ r, n.recurring = some r → r.enabled = true →
        (Server.processScheduledDoc serverNow tokens (Except.ok res) n).1.status
            = NotifStatus.pending
          ∧ (Server.processScheduledDoc serverNow tokens (Except.ok res) n).1.scheduledTime
            = Server.calculateNextScheduledTime n.scheduledTime r)
    ∧ (n.recurring = none →
        (Server.processScheduledDoc serverNow tokens (Except.ok res) n).1.status
          = NotifStatus.sent)
    ∧ (∀ r, n.recurring = some r → r.enabled = false →
        (Server.processScheduledDoc serverNow tokens (Except.ok res) n).1.status
          = NotifStatus.sent)
    ∧ (∀ (m : ScheduledNotif) (now2 : Nat) (recs : List ScheduledNotif),
        m ∈ Server.queryDue now2 recs → m.status = NotifStatus.pending)
    ∧ (∀ m : ScheduledNotif, m.status = NotifStatus.sent →
        ∀ (now2 : Nat) (recs : List ScheduledNotif), m ∉ Server.queryDue now2 recs) := by
  have hlen : ¬ tokens.length = 0 := by
    simpa [List.length_eq_zero] using htok
  have hquery : ∀ (m : ScheduledNotif) (now2 : Nat) (recs : List ScheduledNotif),
      m ∈ Server.queryDue now2 recs → m.status = NotifStatus.pending := by
    intro m now2 recs hm
    have hdec := (List.mem_filter.mp hm).2
    exact (of_decide_eq_true hdec).1
  refine ⟨?_, ?_, ?_, hquery, ?_⟩
  · intro r hr hen
    constructor <;> simp [Server.processScheduledDoc, hlen, hr, hen]
  · intro hr
    simp [Server.processScheduledDoc, hlen, hr]
  · intro r hr hen
    simp [Server.processScheduledDoc, hlen, hr, hen]
  · intro m hms now2 recs hmem
    have := hquery m now2 recs hmem
    rw [hms] at this
    exact absurd this (by decide)

/-- Witness for c4: a due weekly-recurring record goes back to pending with
the advanced scheduledTime; the due one-shot record reaches sent. -/
theorem c4_success_transition_witness :
    ((Server.processScheduledDoc 99 [tokenT] (Except.ok ⟨1, 0, 1⟩) recurDoc).1.status
        = NotifStatus.pending
      ∧ (Server.processScheduledDoc 99 [tokenT] (Except.ok ⟨1, 0, 1⟩) recurDoc).1.scheduledTime
        = Server.calculateNextScheduledTime recurDoc.scheduledTime weeklyRule)
    ∧ (Server.processScheduledDoc 99 [tokenT] (Except.ok ⟨1, 0, 1⟩) pendingDoc).1.status
        = NotifStatus.sent :=
  ⟨(c4_success_transition 99 (toMs jan1) [tokenT] ⟨1, 0, 1⟩ recurDoc rfl (by decide)
      (by decide)).1 weeklyRule rfl rfl,
   (c4_success_transition 99 (toMs jan1) [tokenT] ⟨1, 0, 1⟩ pendingDoc rfl (by decide)
      (by decide)).2.1 rfl⟩

/-- C9: when the processing of a due record raises after the due query, the
persisted record is exactly the prior record with status failed and the
captured error string — in particular scheduledTime (and recurring) are
unchanged — and the per-record loop processes every due record of the tick
independently of the other records and their outcomes. -/
theorem c9_failure_isolation_and_frame (serverNow : Nat) (tokens : List String)
    (e : String) (n : ScheduledNotif) (htok : tokens ≠ []) :
    ((Server.processScheduledDoc serverNow tokens (Except.error e) n).1
        = { n with status := NotifStatus.failed, error := some e }
      ∧ (Server.processScheduledDoc serverNow tokens (Except.error e) n).1.scheduledTime
        = n.scheduledTime
      ∧ (Server.processScheduledDoc serverNow tokens (Except.error e) n).1.recurring
        = n.recurring)
    ∧ (∀ (oracle : ScheduledNotif → Except String DispatchResult)
        (recs : List ScheduledNotif),
        (Server.processTick serverNow tokens oracle recs).length = recs.length
        ∧ ∀ i : Nat, (Server.processTick serverNow tokens oracle recs)[i]?
            = recs[i]?.map
                (fun m => (Server.processScheduledDoc serverNow tokens (oracle m) m).1)) := by
  have hlen : ¬ tokens.length = 0 := by
    simpa [List.length_eq_zero] using htok
  have hfail : (Server.processScheduledDoc serverNow tokens (Except.error e) n).1
      = { n with status := NotifStatus.failed, error := some e } := by
    simp [Server.processScheduledDoc, hlen]
  refine ⟨⟨hfail, ?_, ?_⟩, ?_⟩
  · rw [hfail]
  · rw [hfail]
  · intro oracle recs
    refine ⟨by simp [Server.processTick], ?_⟩
    intro i
    simp [Server.processTick, List.getElem?_map]

/-- Witness for c9: the concrete failed update of the due one-shot record. -/
theorem c9_failure_isolation_witness :
    (Server.processScheduledDoc 99 [tokenT] (Except.error errBoom) pendingDoc).1
      = { pendingDoc with status := NotifStatus.failed, error := some errBoom } :=
  ((c9_failure_isolation_and_frame 99 [tokenT] errBoom pendingDoc (by decide)).1).1

/-- C6 (counterexample): the src/index.ts scheduler skips a due record with
an empty recipient set — the record is returned unchanged with no store
write, its status is still pending (not failed), and the next due query
selects it again. -/
theorem c6_empty_recipients_counterexample :
    Server.processScheduledDoc 99 [] (Except.ok ⟨0, 0, 0⟩) pendingDoc = (pendingDoc, [])
    ∧ pendingDoc.status = NotifStatus.pending
    ∧ NotifStatus.pending ≠ NotifStatus.failed
    ∧ pendingDoc ∈ Server.queryDue (toMs jan1) [pendingDoc] := by
  refine ⟨rfl, rfl, by decide, ?_⟩
  have hdec : decide (pendingDoc.status = NotifStatus.pending
      ∧ toMs pendingDoc.scheduledTime ≤ toMs jan1) = true := by decide
  simp only [Server.queryDue, List.filter, hdec]
  exact List.mem_singleton.mpr rfl

/-- C6 (amended): on an empty recipient set the src/index.ts scheduler
leaves the due record pending and unwritten, so the next due query selects
it again; the part_001 scheduler variant instead marks it failed with the
non-empty reason No devices registered, after which the due query no longer
selects it. -/
theorem c6_empty_recipients_by_variant (serverNow now : Nat)
    (outcomeA : Except String DispatchResult) (outcomeB : Except String (Nat × Nat))
    (n : ScheduledNotif) (hp : n.status = NotifStatus.pending)
    (hdue : toMs n.scheduledTime ≤ now) :
    (Server.processScheduledDoc serverNow [] outcomeA n = (n, [])
      ∧ (Server.processScheduledDoc serverNow [] outcomeA n).1
          ∈ Server.queryDue now [(Server.processScheduledDoc serverNow [] outcomeA n).1])
    ∧ ((ServerV2.processScheduledDoc serverNow [] outcomeB n).1.status = NotifStatus.failed
      ∧ (ServerV2.processScheduledDoc serverNow [] outcomeB n).1.error = some noDevicesMsg
      ∧ noDevicesMsg ≠ ""
      ∧ ∀ recs : List ScheduledNotif,
          (ServerV2.processScheduledDoc serverNow [] outcomeB n).1
            ∉ Server.queryDue now recs) := by
  have hskip : Server.processScheduledDoc serverNow [] outcomeA n = (n, []) := rfl
  have hv2 : (ServerV2.processScheduledDoc serverNow [] outcomeB n).1
      = { n with status := NotifStatus.failed, error := some noDevicesMsg } := rfl
  refine ⟨⟨hskip, ?_⟩, ?_, ?_, by decide, ?_⟩
  · rw [hskip]
    simp [Server.queryDue, List.mem_filter, hp, hdue]
  · rw [hv2]
  · rw [hv2]
  · intro recs hmem
    have := (List.mem_filter.mp hmem).2
    have hpend := (of_decide_eq_true this).1
    rw [hv2] at hpend
    exact absurd (show NotifStatus.failed = NotifStatus.pending from hpend) (by decide)

/-- Witness for c6 (amended): the concrete due one-shot record with an
empty device registry under both scheduler variants. -/
theorem c6_empty_recipients_witness :
    Server.processScheduledDoc 99 [] (Except.ok ⟨0, 0, 0⟩) pendingDoc = (pendingDoc, [])
    ∧ (ServerV2.processScheduledDoc 99 [] (Except.ok (0, 0)) pendingDoc).1.status
        = NotifStatus.failed := by
  have h := c6_empty_recipients_by_variant 99 (toMs jan1) (Except.ok ⟨0, 0, 0⟩)
    (Except.ok (0, 0)) pendingDoc rfl (by decide)
  exact ⟨h.1.1, h.2.1⟩

/-- C8 (counterexample): when the src/index.ts scheduler processes a due
record whose dispatch succeeds, its only store write is the record update —
no history record is appended at all, refuting the claim that a
DispatchHistoryRecord is appended before the status update is persisted. -/
theorem c8_no_history_counterexample :
    (Server.processScheduledDoc 99 [tokenT] (Except.ok ⟨1, 0, 1⟩) pendingDoc).2
      = [StoreEffect.updateDoc
          (Server.processScheduledDoc 99 [tokenT] (Except.ok ⟨1, 0, 1⟩) pendingDoc).1]
    ∧ ((Server.processScheduledDoc 99 [tokenT] (Except.ok ⟨1, 0, 1⟩) pendingDoc).2.filter
          isHistoryAppend) = [] := by
  exact ⟨rfl, rfl⟩

/-- C8 (amended): the part_001 scheduler appends exactly one history record
capturing the content snapshot, target description and counts, and the
append precedes the persisted status update in the write sequence; the
src/index.ts scheduler appends no history record for any outcome. -/
theorem c8_history_by_variant (serverNow : Nat) (tokens : List String)
    (s f : Nat) (n : ScheduledNotif) (htok : tokens ≠ []) :
    (∃ h : HistoryRecord,
        (ServerV2.processScheduledDoc serverNow tokens (Except.ok (s, f)) n).2
          = [StoreEffect.appendHistory h,
             StoreEffect.updateDoc
               (ServerV2.processScheduledDoc serverNow tokens (Except.ok (s, f)) n).1]
        ∧ h.title = n.title ∧ h.body = n.body ∧ h.targetType = n.targetType
        ∧ h.successCount = s ∧ h.failureCount = f ∧ h.totalDevices = tokens.length
        ∧ h.scheduledNotifId = some n.id)
    ∧ (∀ (tokens2 : List String) (outcome : Except String DispatchResult),
        ((Server.processScheduledDoc serverNow tokens2 outcome n).2.filter
            isHistoryAppend) = []) := by
  have hlen : ¬ tokens.length = 0 := by
    simpa [List.length_eq_zero] using htok
  constructor
  · refine ⟨{ title := n.title, body := n.body, targetType := n.targetType
              sentAt := serverNow, totalDevices := tokens.length
              successCount := s, failureCount := f
              readBy := [], scheduledNotifId := some n.id }, ?_, rfl, rfl, rfl, rfl, rfl, rfl, rfl⟩
    simp [ServerV2.processScheduledDoc, hlen]
  · intro tokens2 outcome
    by_cases h2 : tokens2.length = 0
    · simp [Server.processScheduledDoc, h2]
    · cases outcome with
      | error e => simp [Server.processScheduledDoc, h2, isHistoryAppend]
      | ok res => simp [Server.processScheduledDoc, h2, isHistoryAppend]

/-- Witness for c8 (amended): the concrete write sequences of both
variants for the due one-shot record and a successful dispatch. -/
theorem c8_history_by_variant_witness :
    (ServerV2.processScheduledDoc 99 [tokenT] (Except.ok (1, 0)) pendingDoc).2.length = 2
    ∧ ((Server.processScheduledDoc 99 [tokenT] (Except.ok ⟨1, 0, 1⟩) pendingDoc).2.filter
        isHistoryAppend) = [] := by
  obtain ⟨⟨h, hEq, -⟩, hmain⟩ :=
    c8_history_by_variant 99 [tokenT] 1 0 pendingDoc (by decide)
  refine ⟨?_, hmain [tokenT] (Except.ok ⟨1, 0, 1⟩)⟩
  rw [hEq]
  rfl

/-- C5 (counterexample): the src/index.ts calculateNextScheduledTime never
reads the rule time-of-day: from 2024-01-01T10:30 with a daily rule carrying
time 09:00 it produces hour 10, not the claimed overridden hour 9. -/
theorem c5_time_override_counterexample :
    ¬ (∀ (d : JSDate) (r : Recurring) (t : TimeOfDay), r.time = some t →
        (Server.calculateNextScheduledTime d r).hour = t.hours
        ∧ (Server.calculateNextScheduledTime d r).minute = t.minutes
        ∧ (Server.calculateNextScheduledTime d r).second = 0
        ∧ (Server.calculateNextScheduledTime d r).ms = 0) := by
  intro h
  have hc := h tenThirty dailyNineRule ⟨9, 0⟩ rfl
  have h10 : (Server.calculateNextScheduledTime tenThirty dailyNineRule).hour = 10 := by
    decide
  exact absurd (h10.symm.trans hc.1) (by decide)

/-- C5 (amended, for the part_001 calculator): daily advances the absolute
day number by 1 and weekly by 7; monthly advances to the same day-of-month
of the next calendar month (with host-calendar overflow, expressed through
the extrapolated day number); a present rule time overrides hour and minute
with seconds and milliseconds zeroed regardless of frequency, while an
absent rule time leaves all clock fields unchanged; and the weekly
2024-01-01T09:00 scenario yields 2024-01-08T09:00 under both the part_001
calculator and the src/index.ts one. -/
theorem c5_recurrence_calculator :
    (∀ (d : JSDate) (r : Recurring), validDate d → r.frequency = dailyStr →
        dayNumber (ServerV2.calculateNextScheduledTime d r) = dayNumber d + 1)
    ∧ (∀ (d : JSDate) (r : Recurring), validDate d → r.frequency = weeklyStr →
        dayNumber (ServerV2.calculateNextScheduledTime d r) = dayNumber d + 7)
    ∧ (∀ (d : JSDate) (r : Recurring), validDate d → r.frequency = monthlyStr →
        dayNumber (ServerV2.calculateNextScheduledTime d r)
          = (if d.month = 11 then toRataDie (d.year + 1) 0 d.day
             else toRataDie d.year (d.month + 1) d.day))
    ∧ (∀ (d : JSDate) (r : Recurring) (t : TimeOfDay), r.time = some t →
        (ServerV2.calculateNextScheduledTime d r).hour = t.hours
        ∧ (ServerV2.calculateNextScheduledTime d r).minute = t.minutes
        ∧ (ServerV2.calculateNextScheduledTime d r).second = 0
        ∧ (ServerV2.calculateNextScheduledTime d r).ms = 0)
    ∧ (∀ (d : JSDate) (r : Recurring), r.time = none →
        (ServerV2.calculateNextScheduledTime d r).hour = d.hour
        ∧ (ServerV2.calculateNextScheduledTime d r).minute = d.minute
        ∧ (ServerV2.calculateNextScheduledTime d r).second = d.second
        ∧ (ServerV2.calculateNextScheduledTime d r).ms = d.ms)
    ∧ ServerV2.calculateNextScheduledTime jan1 weeklyRule = jan8
    ∧ Server.calculateNextScheduledTime jan1 weeklyRule = jan8 := by
  refine ⟨?_, ?_, ?_, ?_, ?_, by decide, by decide⟩
  · intro d r hv hf
    have hmain := jsSetDate_dayNumber d 1 hv
    simp only [ServerV2.calculateNextScheduledTime, hf]
    cases r.time with
    | none => simpa using hmain
    | some t => simpa using hmain
  · intro d r hv hf
    have hmain := jsSetDate_dayNumber d 7 hv
    simp only [ServerV2.calculateNextScheduledTime, hf]
    cases r.time with
    | none => simpa using hmain
    | some t => simpa using hmain
  · intro d r hv hf
    have hmain := jsSetMonth_dayNumber d hv
    simp only [ServerV2.calculateNextScheduledTime, hf]
    cases r.time with
    | none => simpa using hmain
    | some t => simpa using hmain
  · intro d r t ht
    simp only [ServerV2.calculateNextScheduledTime, ht]
    exact ⟨rfl, rfl, rfl, rfl⟩
  · intro d r ht
    simp only [ServerV2.calculateNextScheduledTime, ht]
    refine ⟨?_, ?_, ?_, ?_⟩ <;> split_ifs <;> rfl

/-- Witness for c5 (amended): the daily advance at 2024-01-01T09:00 without
a rule time, and the 09:00 override from 2024-01-01T10:30. -/
theorem c5_recurrence_calculator_witness :
    dayNumber (ServerV2.calculateNextScheduledTime jan1 dailyNoTime) = dayNumber jan1 + 1
    ∧ (ServerV2.calculateNextScheduledTime tenThirty dailyNineRule).hour = 9 :=
  ⟨c5_recurrence_calculator.1 jan1 dailyNoTime (by decide) rfl,
   (c5_recurrence_calculator.2.2.2.1 tenThirty dailyNineRule ⟨9, 0⟩ rfl).1⟩

/-- C2: two overlapping cron ticks that both run their due query before
either has written its status update back both observe the record as
pending and due and both dispatch it — the concrete interleaved execution
submits the notification to the transport twice, and only the fully
sequential execution dispatches once. -/
theorem c2_overlapping_ticks_double_dispatch :
    (pendingDoc.status = NotifStatus.pending
      ∧ toMs pendingDoc.scheduledTime ≤ toMs jan1)
    ∧ (runCron (toMs jan1) 99 [tokenT] (Except.ok ⟨1, 0, 1⟩) overlappedSched
        ⟨⟨pendingDoc, 0⟩, ⟨0, none⟩, ⟨0, none⟩⟩).glob.dispatchCount = 2
    ∧ (runCron (toMs jan1) 99 [tokenT] (Except.ok ⟨1, 0, 1⟩) sequentialSched
        ⟨⟨pendingDoc, 0⟩, ⟨0, none⟩, ⟨0, none⟩⟩).glob.dispatchCount = 1
    ∧ (runCron (toMs jan1) 99 [tokenT] (Except.ok ⟨1, 0, 1⟩) overlappedSched
        ⟨⟨pendingDoc, 0⟩, ⟨0, none⟩, ⟨0, none⟩⟩).tick0.pc = 3
    ∧ (runCron (toMs jan1) 99 [tokenT] (Except.ok ⟨1, 0, 1⟩) overlappedSched
        ⟨⟨pendingDoc, 0⟩, ⟨0, none⟩, ⟨0, none⟩⟩).tick1.pc = 3
    ∧ overlappedSched.count false = 3 ∧ overlappedSched.count true = 3
    ∧ sequentialSched.count false = 3 ∧ sequentialSched.count true = 3 := by
  decide

/-- Witness for c10: the empty dispatch at a concrete registry and two
concrete transports. -/
theorem c10_empty_token_list_witness :
    Server.sendNotificationWithOfflineSupport [] downTransport [4]
      = (⟨0, 0, 0⟩, [(4 : Nat)]) :=
  (c10_empty_token_list downTransport allOkTransport [4]).1

end NotifBackend
